import Mathlib

/-!
# Verification of the vectorfriends diffbot ingest pipeline

Shallow embedding of `src/main.py`: the LLM-output normalization of
`extract_tech` (lines 81-144), the pydantic data model (lines 21-75),
and the `ingest` write sequence (lines 154-370).

The external collaborators (graph store, classification service) are
modelled at their interface boundary, as the spec prescribes:
the classification service is a pure function from text to parsed JSON,
and the graph store executes merge-by-key statements.
-/

namespace VFIngest

/-- A parsed JSON value, the result of `json.loads` on the classification
response. Python dictionaries preserve insertion order, so an object is an
ordered list of key/value pairs (JSON object keys are always strings). -/
inductive Json where
  | null : Json
  | bool (b : Bool) : Json
  | num (n : Int) : Json
  | str (s : String) : Json
  | arr (elems : List Json) : Json
  | obj (fields : List (String × Json)) : Json

/-- Python exceptions that the extraction code can raise:
`TypeError` from iterating a non-iterable inside `all(...)`, and the
`ValueError` raised at `main.py:138`. -/
inductive PyErr where
  | typeError : PyErr
  | valueError : PyErr
deriving DecidableEq

/-- The test `isinstance(v, str)` for a Python value coming from `json.loads`. -/
def isStrJ : Json → Bool
  | .str _ => true
  | _ => false

/-- Python iteration over a value from `json.loads`: iterating a string
yields its characters as one-character strings, iterating a list yields its
elements, iterating a dict yields its keys; other JSON values
(`None`, booleans, numbers) are not iterable and raise `TypeError`. -/
def pyIter : Json → Except PyErr (List Json)
  | .str s => .ok (s.data.map (fun c => Json.str (String.mk [c])))
  | .arr xs => .ok xs
  | .obj kvs => .ok (kvs.map (fun kv => Json.str kv.1))
  | _ => .error .typeError

/-- The skip test at `main.py:122`:
`not isinstance(a_list, list) and not all(isinstance(item, str) for item in a_list)`.
The conjunction short-circuits: for a list the first conjunct is false, so
`all(...)` is never evaluated. -/
def skipCond : Json → Except PyErr Bool
  | .arr _ => .ok false
  | v =>
      match pyIter v with
      | .ok items => .ok (!(items.all isStrJ))
      | .error e => .error e

/-- The aggregation loop at `main.py:118-131`: for each key of the
dictionary in order, skip the value if `skipCond` holds, otherwise
`aggregate.extend(a_list)` (Python `extend` iterates the value). -/
def aggregateObj : List (String × Json) → Except PyErr (List Json)
  | [] => .ok []
  | (_, v) :: rest =>
      match skipCond v with
      | .error e => .error e
      | .ok true => aggregateObj rest
      | .ok false =>
          match pyIter v with
          | .error e => .error e
          | .ok items =>
              match aggregateObj rest with
              | .error e => .error e
              | .ok tail => .ok (items ++ tail)

/-- The final check at `main.py:135-140`:
`not isinstance(extracted, list) or not all(isinstance(item, str) ...)`
raises `ValueError`; the `or` short-circuits, so a non-list never gets
iterated here. On success the Python object `extracted` is returned. -/
def finalCheck (v : Json) : Except PyErr Json :=
  match v with
  | .arr xs => if xs.all isStrJ then .ok (.arr xs) else .error .valueError
  | _ => .error .valueError

/-- Normalization of the parsed classification response,
`main.py:112-144` after `json.loads`: the dict branch aggregates the
values, then the final check rejects anything that is not a list of
strings. Returns the Python object that `extract_tech` would return. -/
def normalizeJ : Json → Except PyErr Json
  | .obj kvs =>
      match aggregateObj kvs with
      | .error e => .error e
      | .ok aggregate => finalCheck (.arr aggregate)
  | j => finalCheck j

/-- Read the string elements out of a Python list value; on a value that
passed `finalCheck` this loses nothing. -/
def pyStrList : Json → List String
  | .arr xs => xs.filterMap (fun v => match v with | .str s => some s | _ => none)
  | _ => []

/-- Whether `j` is a Python list whose elements are all strings. -/
def isStrListJson (j : Json) : Bool :=
  match j with
  | .arr xs => xs.all isStrJ
  | _ => false

/-- Python's `str.strip()`: remove leading and trailing whitespace. -/
def pyStrip (s : String) : String :=
  String.mk (((s.data.dropWhile Char.isWhitespace).reverse.dropWhile Char.isWhitespace).reverse)

/-- The function `extract_tech` (`main.py:81-144`), parameterized by the classification
service `llm`, modelled from the spec as a pure function from text to the
parsed JSON response (transport and JSON-decoding failures of the real
OpenAI call are outside the embedded code). The argument is optional
because `ingest` passes fields that may be `None`; `not sentence` is true
for `None` and for the empty string. The boolean records whether the
external service was invoked. -/
def extract_tech (llm : String → Json) (sentence : Option String) :
    Except PyErr (List String) × Bool :=
  match sentence with
  | none => (.ok [], false)
  | some s =>
    if s = "" ∨ pyStrip s = "" then
      (.ok [], false)
    else
      match normalizeJ (llm s) with
      | .ok v => (.ok (pyStrList v), true)
      | .error e => (.error e, true)

/-! ## Pydantic data model (`main.py:21-75`) -/

/-- Pydantic model `Location` (`main.py:21`). -/
structure Location where
  isCurrent : Option Bool := none
  address : Option String := none
deriving DecidableEq

/-- Pydantic model `DiffBotTime` (`main.py:26`). -/
structure DiffBotTime where
  timestamp : Option Int := none
deriving DecidableEq

/-- Pydantic model `Employer` (`main.py:29`). -/
structure Employer where
  name : Option String := none
  type : Option String := none
deriving DecidableEq

/-- Pydantic model `Employment` (`main.py:33`). -/
structure Employment where
  isCurrent : Bool
  employer : Option Employer := none
  description : Option String := none
  location : Option Location := none
  title : Option String := none
  to_ : Option DiffBotTime := none
deriving DecidableEq

/-- Pydantic model `Institution` (`main.py:41`); declared in the source but unused. -/
structure Institution where
  name : Option String := none
  diffbotUri : Option String := none
deriving DecidableEq

/-- Pydantic model `Education` (`main.py:45`); `institution` is a free-form dict. -/
structure Education where
  institution : Option (List (String × Json)) := none
  isCurrent : Option Bool := none
  from_ : Option DiffBotTime := none
  to_ : Option DiffBotTime := none

/-- Pydantic model `DiffBotName` (`main.py:51`). -/
structure DiffBotName where
  firstName : Option String := none
  lastName : Option String := none
deriving DecidableEq

/-- Pydantic model `Entity` (`main.py:56`); `languages` holds free-form dicts. -/
structure Entity where
  diffbotUri : Option String := none
  nameDetail : Option DiffBotName := none
  description : Option String := none
  origins : List String := []
  summary : Option String := none
  languages : List (List (String × Json)) := []
  educations : List Education := []
  employments : List Employment := []

/-- Pydantic model `Data` (`main.py:70`). -/
structure Data where
  entity : Entity

/-- Pydantic model `DiffBotData` (`main.py:74`). -/
structure DiffBotData where
  data : List Data := []

/-! ## Graph statements and the store interface

`ingest` executes eleven fixed Cypher statements through `execute_query`.
Each statement is identified together with the parameters the source binds
to it (`main.py:157-361`). -/

/-- The graph write statements of `ingest`, in source order, with their
bound parameters. Key parameters keep their optionality: the source passes
possibly-`None` pydantic fields straight into the parameter maps. -/
inductive Stmt where
  /-- Statement `MERGE (t:Tenant {name: $tenant_id}) ON CREATE SET t.created_at = datetime()` (`main.py:157`). -/
  | mergeTenant (tenant_id : String)
  /-- Statement `MERGE (u:User {diffbotUri: $diffbotUri}) ON CREATE SET u.firstName = $firstName ON CREATE SET u.summary = $summary` (`main.py:178`). -/
  | mergeUser (diffbotUri : Option String) (firstName : Option String) (summary : Option String)
  /-- Statement `MATCH (u:User ...), (t:Tenant ...) MERGE (u)-[:ATTENDED]->(t)` (`main.py:204`). -/
  | mergeAttended (diffbotUri : Option String) (tenant_id : String)
  /-- Statement `UNWIND $user_tech AS tech MERGE (t:Tech {name: tech})` (`main.py:220`). -/
  | mergeTechList (user_tech : List String)
  /-- Statement `UNWIND $user_tech AS tech MATCH (u:User ...), (t:TEch {name: tech}) MERGE (u)-[:KNOWS]->(t)` (`main.py:235`); note the mistyped label `TEch`. -/
  | mergeKnows (diffbotUri : Option String) (user_tech : List String)
  /-- Statement `UNWIND $employments ... MERGE (e:Employer {name: ...}) ON CREATE SET e.description = ... MERGE (r:Role {name: ...})` (`main.py:252`). -/
  | mergeEmployerRole (employments : List Employment)
  /-- Statement `UNWIND $unique_tech_topics AS tech_topic MERGE (t:Tech {name: tech_topic})` (`main.py:288`). -/
  | mergeTechTopics (unique_tech_topics : List String)
  /-- Statement `UNWIND $employer_tech ... MATCH (e:Employer ...), (t:Tech ...) MERGE (e)-[:USES]->(t)` (`main.py:303`). -/
  | mergeUsesEmployer (employer_tech : List (Option String × List String))
  /-- Statement `UNWIND $title_tech ... MATCH (t:Tech ...), (r:Role ...) MERGE (r)-[:USES]->(t)` (`main.py:320`). -/
  | mergeUsesRole (title_tech : List (Option String × List String))
  /-- Statement `UNWIND $employments ... MATCH (u:User ...), (e:Employer ...) MERGE (u)-[:EMPLOYED_AT]->(e)` (`main.py:336`). -/
  | mergeEmployedAt (diffbotUri : Option String) (employments : List Employment)
  /-- Statement `UNWIND $employments ... MATCH (u:User ...), (r:Role ...) MERGE (u)-[:WAS]->(r)` (`main.py:353`). -/
  | mergeWas (diffbotUri : Option String) (employments : List Employment)
deriving DecidableEq

/-- The outcome of one `execute_query` call as discriminated by the
`except` clauses of `ingest`: success, a `ClientError` with code
`ConstraintValidationFailed`, another `ClientError`, or any other
exception. -/
inductive Resp where
  | ok : Resp
  | constraintViolation : Resp
  | clientErr : Resp
  | exn : Resp
deriving DecidableEq

/-- Python exceptions that escape `ingest` uncaught: `dbd.data[0]` on an
empty list (`main.py:184`), `.nameDetail.firstName` on `None`
(`main.py:185`), and errors raised by `extract_tech` (`main.py:219,269,276`). -/
inductive PyExn where
  | indexError : PyExn
  | attributeError : PyExn
  | extraction (e : PyErr) : PyExn
deriving DecidableEq

/-- What `ingest` produces: either the Python `(message, statusCode)`
return value, or an uncaught exception. -/
inductive Outcome where
  | ret (msg : String) (code : Nat) : Outcome
  | raised (e : PyExn) : Outcome
deriving DecidableEq

/-! ## Merge-by-key list primitives

Modelled from the spec: "Merge-by-key: create a graph node/relationship
only if one matching the given key does not already exist; otherwise
return the existing one unchanged." -/

/-- Merge an element into a list: append it only if absent. -/
def pyMerge [BEq α] (l : List α) (x : α) : List α :=
  if l.contains x then l else l ++ [x]

/-- Key membership in an association list. -/
def hasKey (l : List (String × β)) (k : String) : Bool :=
  (l.map Prod.fst).contains k

/-- Merge a keyed entry into an association list: append only if the key
is absent; an existing entry's value is never touched (`ON CREATE SET`). -/
def mergeKey (l : List (String × β)) (k : String) (v : β) : List (String × β) :=
  if hasKey l k then l else l ++ [(k, v)]

/-- An `UNWIND`-style conditional relationship/node merge: one merge per row
`a` whose guard holds, in row order. The guard and payload depend only on
the row, matching a Cypher `MATCH ... MERGE` whose lookups hit node sets
that the statement itself never modifies. -/
def condMergeFold [BEq β] (P : α → Bool) (f : α → β) (l : List β) (ts : List α) : List β :=
  ts.foldl (fun acc a => if P a then pyMerge acc (f a) else acc) l

/-- An `UNWIND`-style keyed node merge: one `mergeKey` per row. -/
def keyFold (k : α → String) (v : α → β) (l : List (String × β)) (ts : List α) :
    List (String × β) :=
  ts.foldl (fun acc a => mergeKey acc (k a) (v a)) l

/-- First-occurrence deduplication, built from `pyMerge`. The source
builds `unique_tech_topics` as a Python `set` (`main.py:281-285`) whose
iteration order is unspecified; the graph effect of the resulting
statement is order-insensitive. -/
def pyDedup [BEq α] (l : List α) : List α :=
  l.foldl pyMerge []

/-! ## The graph store

Modelled from the spec: the store is a black box executing idempotent
merge-by-key statements (§3 invariants, glossary). Nodes are keyed lists,
relationships are (source key, target key) pairs per relationship type. -/

/-- The graph state. `time` abstracts `datetime()`; `tEchNodes` is the
node set for the mistyped `TEch` label of `main.py:237`, which no
statement ever populates. -/
structure GraphState where
  time : Nat
  tenants : List (String × Nat)
  users : List (String × (Option String × Option String))
  employers : List (String × Option String)
  roles : List String
  techs : List String
  tEchNodes : List String
  attended : List (String × String)
  knows : List (String × String)
  employerUses : List (String × String)
  roleUses : List (String × String)
  employedAt : List (String × String)
  was : List (String × String)
deriving DecidableEq

/-- The empty store. -/
def GS0 : GraphState :=
  ⟨0, [], [], [], [], [], [], [], [], [], [], [], []⟩

/-- The employer name reached by `employment["employer"]["name"]`;
Cypher subscripting of `null` yields `null`. -/
def empName (e : Employment) : Option String :=
  e.employer.bind Employer.name

/-- A row of `main.py:252-256` merges successfully only when both merge
keys are non-null: `MERGE` on a `null` property value is a store error. -/
def goodEmpRow (e : Employment) : Bool :=
  (empName e).isSome && e.title.isSome

/-- The state transition of one statement against the store.
Modelled from the spec (merge-by-key semantics; each statement is one
implicit transaction, so a failing statement leaves the state unchanged).
`MATCH` on a `null` parameter matches nothing, so relationship merges with
null keys are no-ops; `MERGE` on a `null` key fails the statement. -/
def applyState (s : GraphState) : Stmt → GraphState
  | .mergeTenant tid =>
      { s with tenants := mergeKey s.tenants tid s.time }
  | .mergeUser uri first summ =>
      { s with users :=
          match uri with
          | none => s.users
          | some u => mergeKey s.users u (first, summ) }
  | .mergeAttended uri tid =>
      { s with attended :=
          match uri with
          | none => s.attended
          | some u =>
              if hasKey s.users u && hasKey s.tenants tid then
                pyMerge s.attended (u, tid)
              else s.attended }
  | .mergeTechList ts =>
      { s with techs := condMergeFold (fun _ => true) id s.techs ts }
  | .mergeKnows uri ts =>
      { s with knows :=
          match uri with
          | none => s.knows
          | some u =>
              condMergeFold (fun t => hasKey s.users u && s.tEchNodes.contains t)
                (fun t => (u, t)) s.knows ts }
  | .mergeEmployerRole emps =>
      { s with
          employers :=
            if emps.all goodEmpRow then
              keyFold (fun e => (empName e).getD "") Employment.description s.employers emps
            else s.employers,
          roles :=
            if emps.all goodEmpRow then
              condMergeFold (fun _ => true) (fun e => e.title.getD "") s.roles emps
            else s.roles }
  | .mergeTechTopics ts =>
      { s with techs := condMergeFold (fun _ => true) id s.techs ts }
  | .mergeUsesEmployer pairs =>
      { s with employerUses :=
          (condMergeFold
            (fun r => match r.1 with
              | some n => hasKey s.employers n && s.techs.contains r.2
              | none => false)
            (fun r => (r.1.getD "", r.2)) s.employerUses
            (pairs.flatMap (fun p => p.2.map (fun t => (p.1, t))))) }
  | .mergeUsesRole pairs =>
      { s with roleUses :=
          (condMergeFold
            (fun r => match r.1 with
              | some ti => s.roles.contains ti && s.techs.contains r.2
              | none => false)
            (fun r => (r.1.getD "", r.2)) s.roleUses
            (pairs.flatMap (fun p => p.2.map (fun t => (p.1, t))))) }
  | .mergeEmployedAt uri emps =>
      { s with employedAt :=
          match uri with
          | none => s.employedAt
          | some u =>
              (condMergeFold
                (fun e => match empName e with
                  | some n => hasKey s.users u && hasKey s.employers n
                  | none => false)
                (fun e => (u, (empName e).getD "")) s.employedAt emps) }
  | .mergeWas uri emps =>
      { s with was :=
          match uri with
          | none => s.was
          | some u =>
              (condMergeFold
                (fun e => match e.title with
                  | some t => hasKey s.users u && s.roles.contains t
                  | none => false)
                (fun e => (u, e.title.getD "")) s.was emps) }

/-- The store's response to a statement. In the absence of concurrent
writers it depends only on the statement: a merge on a `null` key is a
`ClientError` (not a constraint violation); everything else succeeds. -/
def respOf : Stmt → Resp
  | .mergeUser none _ _ => .clientErr
  | .mergeEmployerRole emps => if emps.all goodEmpRow then .ok else .clientErr
  | _ => .ok

/-- The concrete store executor: state transition plus response. -/
def applyStmt (s : GraphState) (st : Stmt) : GraphState × Resp :=
  (applyState s st, respOf st)

/-- A fault-injecting executor: replays a fixed script of responses, one
per executed statement (defaulting to success), and never touches a graph.
Used to exercise the error-handling paths of `ingest`. -/
def scriptExec (resps : List Resp) (_ : Stmt) : List Resp × Resp :=
  match resps with
  | [] => ([], .ok)
  | r :: rest => (rest, r)

/-! ## The ingest sequence (`main.py:154-370`) -/

/-- The list `employer_tech` (`main.py:268-272`): for each employment with a
non-`None` employer, in order, run `extract_tech` on its description and
pair the result with the employer's (possibly `None`) name. The first
extraction error aborts the comprehension. -/
def employerTech (llm : String → Json) (emps : List Employment) :
    Except PyErr (List (Option String × List String)) :=
  (emps.filter (fun e => e.employer.isSome)).mapM
    (fun e => ((extract_tech llm e.description).1).map (fun ts => (empName e, ts)))

/-- The list `title_tech` (`main.py:275-278`): for every employment, run
`extract_tech` on its title (`None` yields `[]` without a call). -/
def titleTech (llm : String → Json) (emps : List Employment) :
    Except PyErr (List (Option String × List String)) :=
  emps.mapM
    (fun e => ((extract_tech llm e.title).1).map (fun ts => (e.title, ts)))

/-- The set `unique_tech_topics` (`main.py:281-285,293`) as a list; the source
materializes a Python `set`, whose iteration order is unspecified — we fix
first-occurrence order, which the order-insensitive merge statement cannot
distinguish. -/
def uniqueTechTopics (et tt : List (Option String × List String)) : List String :=
  pyDedup ((et.map Prod.snd).flatten ++ (tt.map Prod.snd).flatten)

/-- The function `ingest` (`main.py:154-370`), generic in the store executor `execQ`
(the concrete store is `applyStmt`; `scriptExec` injects faults). Returns
the final executor state, the trace of executed statements in order, and
the outcome. Each step runs `execute_query` inside `try/except`: the
tenant and user merges swallow `ClientError.Schema.ConstraintValidationFailed`
and return a 500 message on any other exception; every later step returns
its 500 message on any exception. `extract_tech` failures and the
`dbd.data[0]` / `.nameDetail.firstName` accesses raise out of `ingest`
uncaught. -/
def ingest {σ : Type} (execQ : σ → Stmt → σ × Resp) (llm : String → Json)
    (dbd : DiffBotData) (tenant_id : String) (s0 : σ) :
    σ × List Stmt × Outcome :=
  let st1 := Stmt.mergeTenant tenant_id
  let q1 := execQ s0 st1
  match q1.2 with
  | .clientErr | .exn => (q1.1, [st1], .ret "Error creating tenant node" 500)
  | _ =>
  match dbd.data with
  | [] => (q1.1, [st1], .raised .indexError)
  | d0 :: _ =>
  match d0.entity.nameDetail with
  | none => (q1.1, [st1], .raised .attributeError)
  | some nd =>
  let ent := d0.entity
  let st2 := Stmt.mergeUser ent.diffbotUri nd.firstName ent.summary
  let q2 := execQ q1.1 st2
  match q2.2 with
  | .clientErr | .exn => (q2.1, [st1, st2], .ret "Error creating user node" 500)
  | _ =>
  let st3 := Stmt.mergeAttended ent.diffbotUri tenant_id
  let q3 := execQ q2.1 st3
  match q3.2 with
  | .constraintViolation | .clientErr | .exn =>
      (q3.1, [st1, st2, st3], .ret "Error creating user-tenant relationship" 500)
  | .ok =>
  match (extract_tech llm ent.description).1 with
  | .error e => (q3.1, [st1, st2, st3], .raised (.extraction e))
  | .ok user_tech =>
  let st4 := Stmt.mergeTechList user_tech
  let q4 := execQ q3.1 st4
  match q4.2 with
  | .constraintViolation | .clientErr | .exn =>
      (q4.1, [st1, st2, st3, st4], .ret "Error creating user_tech nodes" 500)
  | .ok =>
  let st5 := Stmt.mergeKnows ent.diffbotUri user_tech
  let q5 := execQ q4.1 st5
  match q5.2 with
  | .constraintViolation | .clientErr | .exn =>
      (q5.1, [st1, st2, st3, st4, st5],
        .ret "Error creating user-topic relationships" 500)
  | .ok =>
  let st6 := Stmt.mergeEmployerRole ent.employments
  let q6 := execQ q5.1 st6
  match q6.2 with
  | .constraintViolation | .clientErr | .exn =>
      (q6.1, [st1, st2, st3, st4, st5, st6], .ret "Error creating employer nodes" 500)
  | .ok =>
  match employerTech llm ent.employments with
  | .error e => (q6.1, [st1, st2, st3, st4, st5, st6], .raised (.extraction e))
  | .ok et =>
  match titleTech llm ent.employments with
  | .error e => (q6.1, [st1, st2, st3, st4, st5, st6], .raised (.extraction e))
  | .ok tt =>
  let st7 := Stmt.mergeTechTopics (uniqueTechTopics et tt)
  let q7 := execQ q6.1 st7
  match q7.2 with
  | .constraintViolation | .clientErr | .exn =>
      (q7.1, [st1, st2, st3, st4, st5, st6, st7], .ret "Error creating tech nodes" 500)
  | .ok =>
  let st8 := Stmt.mergeUsesEmployer et
  let q8 := execQ q7.1 st8
  match q8.2 with
  | .constraintViolation | .clientErr | .exn =>
      (q8.1, [st1, st2, st3, st4, st5, st6, st7, st8],
        .ret "Error creating tech-employer relationships" 500)
  | .ok =>
  let st9 := Stmt.mergeUsesRole tt
  let q9 := execQ q8.1 st9
  match q9.2 with
  | .constraintViolation | .clientErr | .exn =>
      (q9.1, [st1, st2, st3, st4, st5, st6, st7, st8, st9],
        .ret "Error creating tech-title relationships" 500)
  | .ok =>
  let st10 := Stmt.mergeEmployedAt ent.diffbotUri ent.employments
  let q10 := execQ q9.1 st10
  match q10.2 with
  | .constraintViolation | .clientErr | .exn =>
      (q10.1, [st1, st2, st3, st4, st5, st6, st7, st8, st9, st10],
        .ret "Error creating employment relationships" 500)
  | .ok =>
  let st11 := Stmt.mergeWas ent.diffbotUri ent.employments
  let q11 := execQ q10.1 st11
  match q11.2 with
  | .constraintViolation | .clientErr | .exn =>
      (q11.1, [st1, st2, st3, st4, st5, st6, st7, st8, st9, st10, st11],
        .ret "Error creating role relationships" 500)
  | .ok =>
      (q11.1, [st1, st2, st3, st4, st5, st6, st7, st8, st9, st10, st11],
        .ret ("Successfully processed " ++ nd.firstName.getD "None") 200)

/-! ## Merge-by-key laws

The store's merge primitives create only what is absent, so re-applying
a statement never changes the graph and never overwrites values. -/

theorem contains_pyMerge_self [BEq α] [LawfulBEq α] (l : List α) (x : α) :
    (pyMerge l x).contains x = true := by
  unfold pyMerge
  split
  · assumption
  · simp

theorem contains_pyMerge_of_contains [BEq α] [LawfulBEq α] {l : List α} {y : α} (x : α)
    (h : l.contains y = true) : (pyMerge l x).contains y = true := by
  unfold pyMerge
  split
  · exact h
  · simp_all

theorem pyMerge_eq_self [BEq α] {l : List α} {x : α} (h : l.contains x = true) :
    pyMerge l x = l := by
  unfold pyMerge
  simp [h]

theorem pyMerge_idem [BEq α] [LawfulBEq α] (l : List α) (x : α) :
    pyMerge (pyMerge l x) x = pyMerge l x :=
  pyMerge_eq_self (contains_pyMerge_self l x)

theorem contains_condMergeFold_of_contains [BEq β] [LawfulBEq β] (P : α → Bool) (f : α → β)
    {l : List β} (ts : List α) {y : β} (h : l.contains y = true) :
    (condMergeFold P f l ts).contains y = true := by
  induction ts generalizing l with
  | nil => exact h
  | cons a rest ih =>
      unfold condMergeFold at *
      simp only [List.foldl_cons]
      split
      · exact ih (contains_pyMerge_of_contains _ h)
      · exact ih h

theorem contains_condMergeFold_of_mem [BEq β] [LawfulBEq β] {P : α → Bool} {f : α → β}
    (l : List β) {ts : List α} {a : α} (ha : a ∈ ts) (hP : P a = true) :
    (condMergeFold P f l ts).contains (f a) = true := by
  induction ts generalizing l with
  | nil => cases ha
  | cons b rest ih =>
      unfold condMergeFold at *
      simp only [List.foldl_cons]
      rcases List.mem_cons.mp ha with h | h
      · subst h
        rw [hP]
        exact contains_condMergeFold_of_contains P f rest (contains_pyMerge_self l (f a))
      · split
        · exact ih _ h
        · exact ih _ h

theorem condMergeFold_eq_self [BEq β] {P : α → Bool} {f : α → β} {l : List β} {ts : List α}
    (h : ∀ a ∈ ts, P a = true → l.contains (f a) = true) :
    condMergeFold P f l ts = l := by
  induction ts with
  | nil => rfl
  | cons a rest ih =>
      unfold condMergeFold at *
      simp only [List.foldl_cons]
      by_cases hP : P a = true
      · rw [hP, if_pos rfl, pyMerge_eq_self (h a (List.mem_cons_self a rest) hP)]
        exact ih (fun b hb => h b (List.mem_cons_of_mem a hb))
      · rw [Bool.not_eq_true] at hP
        rw [hP]
        exact ih (fun b hb => h b (List.mem_cons_of_mem a hb))

theorem condMergeFold_idem [BEq β] [LawfulBEq β] (P : α → Bool) (f : α → β)
    (l : List β) (ts : List α) :
    condMergeFold P f (condMergeFold P f l ts) ts = condMergeFold P f l ts :=
  condMergeFold_eq_self (fun a ha hP => contains_condMergeFold_of_mem l ha hP)

/-- Re-running an earlier merge statement after a later one over the same
store is still a no-op: its rows were already merged before the later
statement only added more. -/
theorem condMergeFold_absorb [BEq β] [LawfulBEq β] (P Q : α → Bool) (f g : α → β)
    (l : List β) (a b : List α) :
    condMergeFold Q g (condMergeFold P f (condMergeFold Q g (condMergeFold P f l a) b) a) b
      = condMergeFold Q g (condMergeFold P f l a) b := by
  rw [condMergeFold_eq_self (fun x hx hP => contains_condMergeFold_of_contains Q g b
    (contains_condMergeFold_of_mem l hx hP))]
  exact condMergeFold_idem Q g _ b

theorem hasKey_mergeKey_self (l : List (String × β)) (k : String) (v : β) :
    hasKey (mergeKey l k v) k = true := by
  unfold mergeKey
  split
  · assumption
  · simp [hasKey]

theorem hasKey_mergeKey_of_hasKey {l : List (String × β)} {k' : String} (k : String) (v : β)
    (h : hasKey l k' = true) : hasKey (mergeKey l k v) k' = true := by
  unfold mergeKey
  split
  · exact h
  · unfold hasKey at *
    simp_all

theorem mergeKey_eq_self {l : List (String × β)} {k : String} {v : β}
    (h : hasKey l k = true) : mergeKey l k v = l := by
  unfold mergeKey
  simp [h]

theorem mergeKey_idem (l : List (String × β)) (k : String) (v v' : β) :
    mergeKey (mergeKey l k v) k v' = mergeKey l k v :=
  mergeKey_eq_self (hasKey_mergeKey_self l k v)

theorem hasKey_keyFold_of_hasKey {k : α → String} {v : α → β} {l : List (String × β)}
    (ts : List α) {k' : String} (h : hasKey l k' = true) :
    hasKey (keyFold k v l ts) k' = true := by
  induction ts generalizing l with
  | nil => exact h
  | cons a rest ih =>
      unfold keyFold at *
      simp only [List.foldl_cons]
      exact ih (hasKey_mergeKey_of_hasKey _ _ h)

theorem hasKey_keyFold_of_mem {k : α → String} {v : α → β} (l : List (String × β))
    {ts : List α} {a : α} (ha : a ∈ ts) :
    hasKey (keyFold k v l ts) (k a) = true := by
  induction ts generalizing l with
  | nil => cases ha
  | cons b rest ih =>
      unfold keyFold at *
      simp only [List.foldl_cons]
      rcases List.mem_cons.mp ha with h | h
      · subst h
        exact hasKey_keyFold_of_hasKey rest (hasKey_mergeKey_self l (k a) (v a))
      · exact ih _ h

theorem keyFold_eq_self {k : α → String} {v : α → β} {l : List (String × β)} {ts : List α}
    (h : ∀ a ∈ ts, hasKey l (k a) = true) : keyFold k v l ts = l := by
  induction ts with
  | nil => rfl
  | cons a rest ih =>
      unfold keyFold at *
      simp only [List.foldl_cons]
      rw [mergeKey_eq_self (h a (List.mem_cons_self a rest))]
      exact ih (fun b hb => h b (List.mem_cons_of_mem a hb))

theorem keyFold_idem (k : α → String) (v : α → β) (l : List (String × β)) (ts : List α) :
    keyFold k v (keyFold k v l ts) ts = keyFold k v l ts :=
  keyFold_eq_self (fun a ha => hasKey_keyFold_of_mem l ha)

/-! ## Facts about the extraction normalization -/

/-- The elements of a Python list value (empty for non-lists). -/
def arrVal : Json → List Json
  | .arr ys => ys
  | _ => []

/-- When every value of the dictionary is a list, no key is skipped and
the aggregate is the concatenation of the value lists in key order. -/
theorem aggregateObj_of_arrays {kvs : List (String × Json)}
    (h : ∀ kv ∈ kvs, ∃ ys, kv.2 = Json.arr ys) :
    aggregateObj kvs = .ok ((kvs.map (fun kv => arrVal kv.2)).flatten) := by
  induction kvs with
  | nil => rfl
  | cons kv rest ih =>
      obtain ⟨ys, hys⟩ := h kv (List.mem_cons_self kv rest)
      obtain ⟨k, v⟩ := kv
      simp only at hys
      subst hys
      simp only [aggregateObj, skipCond, pyIter, arrVal, List.map_cons, List.flatten_cons]
      rw [ih (fun b hb => h b (List.mem_cons_of_mem _ hb))]
      rfl

/-- A successfully checked value is a list of strings. -/
theorem finalCheck_ok_isStrList {v r : Json} (h : finalCheck v = .ok r) :
    isStrListJson r = true := by
  unfold finalCheck at h
  split at h
  next xs =>
    split at h
    next hall =>
      cases h
      simpa [isStrListJson] using hall
    next => cases h
  next => cases h

/-! ## Claims about the tech extractor -/

/-- C6 counterexample: (1) an object whose values are the string-lists
`["X"]` and `["X"]` normalizes to `["X", "X"]` — not deduplicated;
(2) a value list containing the non-string `1` is not skipped: its
elements are aggregated and the call then fails with `ValueError`. -/
theorem C6_counterexample :
    normalizeJ (.obj [("a", .arr [.str "X"]), ("b", .arr [.str "X"])])
        = .ok (.arr [.str "X", .str "X"]) ∧
    normalizeJ (.obj [("a", .arr [.num 1]), ("b", .arr [.str "X"])])
        = .error .valueError :=
  ⟨rfl, rfl⟩

/-- C6 (amended): for a response object whose values are arrays of
strings, the extractor returns their flat concatenation in key order,
without deduplication; and a value list containing a non-string element is
not skipped — when every value is an array, one non-string element makes
the whole call fail with `ValueError`. -/
theorem C6_amended_concat_no_dedup :
    (∀ kvss : List (String × List String),
        normalizeJ (.obj (kvss.map (fun kv => (kv.1, Json.arr (kv.2.map Json.str)))))
          = .ok (.arr (((kvss.map Prod.snd).flatten).map Json.str))) ∧
    (∀ (pre post : List (String × Json)) (k : String) (xs : List Json) (v : Json),
        v ∈ xs → isStrJ v = false →
        (∀ kv ∈ pre, ∃ ys, kv.2 = Json.arr ys) →
        (∀ kv ∈ post, ∃ ys, kv.2 = Json.arr ys) →
        normalizeJ (.obj (pre ++ (k, Json.arr xs) :: post)) = .error .valueError) := by
  constructor
  · intro kvss
    have harr : ∀ kv ∈ kvss.map (fun kv => (kv.1, Json.arr (kv.2.map Json.str))),
        ∃ ys, kv.2 = Json.arr ys := by
      intro kv hkv
      obtain ⟨p, hp, hpe⟩ := List.mem_map.mp hkv
      exact ⟨p.2.map Json.str, by rw [← hpe]⟩
    have hagg := aggregateObj_of_arrays harr
    simp only [normalizeJ, hagg]
    have hall : (((kvss.map (fun kv => (kv.1, Json.arr (kv.2.map Json.str)))).map
        (fun kv => arrVal kv.2)).flatten).all isStrJ = true := by
      rw [List.all_eq_true]
      intro v hv
      rw [List.mem_flatten] at hv
      obtain ⟨l, hl, hvl⟩ := hv
      obtain ⟨kv2, hkv2, hle⟩ := List.mem_map.mp hl
      obtain ⟨p, hp, hpe⟩ := List.mem_map.mp hkv2
      rw [← hpe] at hle
      simp only [arrVal] at hle
      rw [← hle] at hvl
      obtain ⟨c, hc, hce⟩ := List.mem_map.mp hvl
      rw [← hce]
      rfl
    simp only [finalCheck, hall, if_true]
    simp [List.map_flatten, List.map_map, Function.comp_def, arrVal]
  · intro pre post k xs v hv hvs hpre hpost
    have harr : ∀ kv ∈ pre ++ (k, Json.arr xs) :: post, ∃ ys, kv.2 = Json.arr ys := by
      intro kv hkv
      rw [List.mem_append, List.mem_cons] at hkv
      rcases hkv with h | h | h
      · exact hpre kv h
      · exact ⟨xs, by rw [h]⟩
      · exact hpost kv h
    have hagg := aggregateObj_of_arrays harr
    simp only [normalizeJ, hagg]
    have hmem : v ∈ (((pre ++ (k, Json.arr xs) :: post).map (fun kv => arrVal kv.2)).flatten) := by
      rw [List.mem_flatten]
      refine ⟨xs, ?_, hv⟩
      rw [List.mem_map]
      exact ⟨(k, Json.arr xs), by simp, rfl⟩
    have hall : ((((pre ++ (k, Json.arr xs) :: post).map (fun kv => arrVal kv.2)).flatten).all isStrJ) = false := by
      by_contra hne
      rw [Bool.not_eq_false, List.all_eq_true] at hne
      have hvtrue := hne v hmem
      rw [hvs] at hvtrue
      cases hvtrue
    simp only [finalCheck, hall]
    rfl

/-- C6 witness: the amended theorem at concrete inputs; the second part is
applied at `pre = post = []`, `xs = [1]`, `v = 1`, discharging its
hypotheses there. -/
theorem C6_amended_concat_no_dedup_witness :
    normalizeJ (.obj [("a", .arr [.str "X"]), ("b", .arr [.str "X", .str "Y"])])
        = .ok (.arr [.str "X", .str "X", .str "Y"]) ∧
    normalizeJ (.obj [("a", .arr [.num 1])]) = .error .valueError :=
  ⟨C6_amended_concat_no_dedup.1 [("a", ["X"]), ("b", ["X", "Y"])],
   C6_amended_concat_no_dedup.2 [] [] "a" [.num 1] (.num 1) (by simp) rfl
     (by simp) (by simp)⟩

/-- C7 (confirmed): a response that parses to a bare JSON string fails
with the extraction error (the `ValueError` of `main.py:138`, the spec
calls it ExtractionError), and whenever normalization succeeds its result
is a list of strings — the extractor never returns anything else. -/
theorem C7_nonlist_rejected :
    (∀ s : String, normalizeJ (.str s) = .error .valueError) ∧
    (∀ (j r : Json), normalizeJ j = .ok r → isStrListJson r = true) := by
  constructor
  · intro s
    rfl
  · intro j r h
    match j with
    | .obj kvs =>
        have h' : (match aggregateObj kvs with
            | .error e => (.error e : Except PyErr Json)
            | .ok aggregate => finalCheck (.arr aggregate)) = .ok r := h
        cases hagg : aggregateObj kvs with
        | ok xs =>
            rw [hagg] at h'
            exact finalCheck_ok_isStrList h'
        | error e =>
            rw [hagg] at h'
            cases h'
    | .null => exact finalCheck_ok_isStrList (show finalCheck Json.null = .ok r from h)
    | .bool b => exact finalCheck_ok_isStrList (show finalCheck (.bool b) = .ok r from h)
    | .num n => exact finalCheck_ok_isStrList (show finalCheck (.num n) = .ok r from h)
    | .str s => exact finalCheck_ok_isStrList (show finalCheck (.str s) = .ok r from h)
    | .arr xs => exact finalCheck_ok_isStrList (show finalCheck (.arr xs) = .ok r from h)

/-- C7 witness: both parts at concrete inputs; the second part is applied
to the response `["Go"]`, discharging the equation hypothesis by `rfl`. -/
theorem C7_nonlist_rejected_witness :
    normalizeJ (.str "Go") = .error .valueError ∧
    isStrListJson (.arr [.str "Go"]) = true :=
  ⟨C7_nonlist_rejected.1 "Go",
   C7_nonlist_rejected.2 (.arr [.str "Go"]) (.arr [.str "Go"]) rfl⟩

/-- C8 (confirmed): on an input that is empty or all whitespace, the
extractor returns `[]` and the external classification service is not
invoked (the call flag is `false`, and the result does not depend on the
service at all). -/
theorem C8_blank_input_no_call (llm : String → Json) (s : String) (h : pyStrip s = "") :
    extract_tech llm (some s) = (.ok [], false) := by
  simp only [extract_tech]
  rw [if_pos (Or.inr h)]

/-- C8 witness: the two-space input. -/
theorem C8_blank_input_no_call_witness :
    pyStrip "  " = "" ∧ extract_tech (fun _ => Json.arr []) (some "  ") = (.ok [], false) :=
  ⟨by decide, C8_blank_input_no_call (fun _ => Json.arr []) "  " (by decide)⟩

/-- C9 (confirmed): a dictionary value that is a string is not skipped —
the skip test conjoins `not isinstance(a_list, list)` with
`not all(isinstance(item, str) ...)`, and iterating a string yields
one-character strings — so `aggregate.extend` spills its characters into
the result, each becoming a separate element of the returned list. -/
theorem C9_string_value_spills_chars :
    (∀ (k s : String) (rest : List (String × Json)),
        aggregateObj ((k, Json.str s) :: rest)
          = (aggregateObj rest).map
              (fun tail => s.data.map (fun c => Json.str (String.mk [c])) ++ tail)) ∧
    normalizeJ (.obj [("application", .str "Go")]) = .ok (.arr [.str "G", .str "o"]) := by
  constructor
  · intro k s rest
    have hall : ((s.data.map (fun c => Json.str (String.mk [c]))).all isStrJ) = true := by
      rw [List.all_eq_true]
      intro v hv
      obtain ⟨c, hc, hce⟩ := List.mem_map.mp hv
      rw [← hce]
      rfl
    simp only [aggregateObj, skipCond, pyIter, hall, Bool.not_true]
    cases aggregateObj rest <;> rfl
  · rfl

/-! ## Concrete scenarios -/

/-- A classification service that finds nothing. -/
def llm0 : String → Json := fun _ => Json.arr []

/-- The classifier of end-to-end scenario A: yields `["Python", "Go"]`
for the text `"Python, Go"`. -/
def llmA : String → Json := fun s =>
  if s = "Python, Go" then .arr [.str "Python", .str "Go"] else .arr []

/-- Scenario A input: `{entityUri: "u1", nameDetail: {firstName: "Ann"},
summary: "Python, Go", employments: []}` (the source's name for the
entity identifier field is `diffbotUri`). -/
def docA : DiffBotData :=
  { data := [⟨{ diffbotUri := some "u1", nameDetail := some ⟨some "Ann", none⟩,
                summary := some "Python, Go" }⟩] }

/-- A minimal valid document. -/
def docB : DiffBotData :=
  { data := [⟨{ diffbotUri := some "u1", nameDetail := some ⟨some "Ann", none⟩ }⟩] }

/-- A document lacking the entity identifier. -/
def docNoUri : DiffBotData :=
  { data := [⟨{ nameDetail := some ⟨some "Bo", none⟩ }⟩] }

/-- A document lacking the name object. -/
def docNoName : DiffBotData :=
  { data := [⟨{ diffbotUri := some "u2" }⟩] }

/-! ## Claims about the ingest sequence -/

/-- C2 counterexample: for the document lacking `entityUri`, ingestion is
not rejected by validation: the tenant merge statement is executed (one
graph operation, not zero), and the record then fails with the store-level
user-node error, not a `ValidationError` (no such check exists). -/
theorem C2_counterexample :
    ingest applyStmt llm0 docNoUri "acme" GS0
      = ({ GS0 with tenants := [("acme", 0)] },
         [.mergeTenant "acme", .mergeUser none (some "Bo") none],
         .ret "Error creating user node" 500) :=
  rfl

/-- C2 (amended): no upfront validation exists. The tenant merge always
executes first; a document with no name object then raises
`AttributeError` while the user parameters are built, and a document with
no `entityUri` sends the user merge with a `null` key to the store, which
fails it, so `ingest` returns `("Error creating user node", 500)`. In both
cases at least one graph operation has been executed. -/
theorem C2_amended_no_validation (tid : String) (s0 : GraphState) (llm : String → Json)
    (d0 : Data) (rest : List Data) :
    (d0.entity.nameDetail = none →
        ingest applyStmt llm ⟨d0 :: rest⟩ tid s0
          = (applyState s0 (.mergeTenant tid), [.mergeTenant tid], .raised .attributeError)) ∧
    (∀ nd, d0.entity.nameDetail = some nd → d0.entity.diffbotUri = none →
        ingest applyStmt llm ⟨d0 :: rest⟩ tid s0
          = (applyState s0 (.mergeTenant tid),
             [.mergeTenant tid, .mergeUser none nd.firstName d0.entity.summary],
             .ret "Error creating user node" 500)) := by
  constructor
  · intro h
    simp only [ingest, applyStmt, respOf, h]
  · intro nd hnd huri
    simp only [ingest, applyStmt, respOf, hnd, huri]
    rfl

/-- C2 witness: the amended theorem applied to the two concrete documents
above, its hypotheses discharged by `rfl`. -/
theorem C2_amended_no_validation_witness :
    ingest applyStmt llm0 docNoName "acme" GS0
      = (applyState GS0 (.mergeTenant "acme"), [.mergeTenant "acme"],
         .raised .attributeError) ∧
    ingest applyStmt llm0 docNoUri "acme" GS0
      = (applyState GS0 (.mergeTenant "acme"),
         [.mergeTenant "acme", .mergeUser none (some "Bo") none],
         .ret "Error creating user node" 500) :=
  ⟨(C2_amended_no_validation "acme" GS0 llm0 ⟨{ diffbotUri := some "u2" }⟩ []).1 rfl,
   (C2_amended_no_validation "acme" GS0 llm0 ⟨{ nameDetail := some ⟨some "Bo", none⟩ }⟩ []).2
     ⟨some "Bo", none⟩ rfl rfl⟩

/-- C3 counterexample: on scenario A's exact input and classifier — which
does yield `["Python", "Go"]` for the text `"Python, Go"` — ingestion
returns status 200 but creates no `Tech` node and no `KNOWS` edge:
`extract_tech` is applied to the `description` field (absent here), not to
`summary`, and the `KNOWS` statement matches the mistyped label `TEch`. -/
theorem C3_counterexample :
    (extract_tech llmA (some "Python, Go")).1 = .ok ["Python", "Go"] ∧
    (ingest applyStmt llmA docA "acme" GS0).1.techs = [] ∧
    (ingest applyStmt llmA docA "acme" GS0).1.knows = [] ∧
    (ingest applyStmt llmA docA "acme" GS0).2.2
      = .ret "Successfully processed Ann" 200 :=
  ⟨rfl, rfl, rfl, rfl⟩

/-- C3 (amended): scenario A produces `Tenant(acme)`,
`User(u1, firstName=Ann, summary="Python, Go")` and the `ATTENDED` edge,
with result status 200 — but no `Tech` nodes and no `KNOWS` edges,
because extraction reads the absent `description` field and the `KNOWS`
merge matches the mistyped `TEch` label. -/
theorem C3_amended_scenarioA :
    ingest applyStmt llmA docA "acme" GS0
      = ({ GS0 with
            tenants := [("acme", 0)],
            users := [("u1", (some "Ann", some "Python, Go"))],
            attended := [("u1", "acme")] },
         [.mergeTenant "acme", .mergeUser (some "u1") (some "Ann") (some "Python, Go"),
          .mergeAttended (some "u1") "acme", .mergeTechList [], .mergeKnows (some "u1") [],
          .mergeEmployerRole [], .mergeTechTopics [], .mergeUsesEmployer [],
          .mergeUsesRole [], .mergeEmployedAt (some "u1") [], .mergeWas (some "u1") []],
         .ret "Successfully processed Ann" 200) :=
  rfl

/-- C4 counterexample: when the third statement (the `ATTENDED` merge)
fails, `ingest` returns that single failure immediately: the trace stops
at three statements — the remaining eight are never executed — and the
result reports only the first failure, not an accumulation. -/
theorem C4_counterexample :
    ingest scriptExec llm0 docB "acme" [.ok, .ok, .exn]
      = ([], [.mergeTenant "acme", .mergeUser (some "u1") (some "Ann") none,
              .mergeAttended (some "u1") "acme"],
         .ret "Error creating user-tenant relationship" 500) :=
  rfl

/-- C4 (amended): a failing step aborts the record, at every one of the
eleven statement positions: `ingest` returns the failing step's
`(message, 500)` at once, the trace ends at the failing statement, and no
later statement executes — whatever responses the store would have given
afterwards (the script remainder `rest` is returned unconsumed, one
conjunct per position). -/
theorem C4_amended_first_failure_aborts (rest : List Resp) (llm : String → Json) :
    ingest scriptExec llm docB "acme" (.exn :: rest)
      = (rest, [.mergeTenant "acme"], .ret "Error creating tenant node" 500) ∧
    ingest scriptExec llm docB "acme" ([.ok] ++ .exn :: rest)
      = (rest, [.mergeTenant "acme", .mergeUser (some "u1") (some "Ann") none],
         .ret "Error creating user node" 500) ∧
    ingest scriptExec llm docB "acme" ([.ok, .ok] ++ .exn :: rest)
      = (rest, [.mergeTenant "acme", .mergeUser (some "u1") (some "Ann") none,
                .mergeAttended (some "u1") "acme"],
         .ret "Error creating user-tenant relationship" 500) ∧
    ingest scriptExec llm docB "acme" ([.ok, .ok, .ok] ++ .exn :: rest)
      = (rest, [.mergeTenant "acme", .mergeUser (some "u1") (some "Ann") none,
                .mergeAttended (some "u1") "acme", .mergeTechList []],
         .ret "Error creating user_tech nodes" 500) ∧
    ingest scriptExec llm docB "acme" ([.ok, .ok, .ok, .ok] ++ .exn :: rest)
      = (rest, [.mergeTenant "acme", .mergeUser (some "u1") (some "Ann") none,
                .mergeAttended (some "u1") "acme", .mergeTechList [],
                .mergeKnows (some "u1") []],
         .ret "Error creating user-topic relationships" 500) ∧
    ingest scriptExec llm docB "acme" ([.ok, .ok, .ok, .ok, .ok] ++ .exn :: rest)
      = (rest, [.mergeTenant "acme", .mergeUser (some "u1") (some "Ann") none,
                .mergeAttended (some "u1") "acme", .mergeTechList [],
                .mergeKnows (some "u1") [], .mergeEmployerRole []],
         .ret "Error creating employer nodes" 500) ∧
    ingest scriptExec llm docB "acme" ([.ok, .ok, .ok, .ok, .ok, .ok] ++ .exn :: rest)
      = (rest, [.mergeTenant "acme", .mergeUser (some "u1") (some "Ann") none,
                .mergeAttended (some "u1") "acme", .mergeTechList [],
                .mergeKnows (some "u1") [], .mergeEmployerRole [],
                .mergeTechTopics []],
         .ret "Error creating tech nodes" 500) ∧
    ingest scriptExec llm docB "acme" ([.ok, .ok, .ok, .ok, .ok, .ok, .ok] ++ .exn :: rest)
      = (rest, [.mergeTenant "acme", .mergeUser (some "u1") (some "Ann") none,
                .mergeAttended (some "u1") "acme", .mergeTechList [],
                .mergeKnows (some "u1") [], .mergeEmployerRole [],
                .mergeTechTopics [], .mergeUsesEmployer []],
         .ret "Error creating tech-employer relationships" 500) ∧
    ingest scriptExec llm docB "acme"
        ([.ok, .ok, .ok, .ok, .ok, .ok, .ok, .ok] ++ .exn :: rest)
      = (rest, [.mergeTenant "acme", .mergeUser (some "u1") (some "Ann") none,
                .mergeAttended (some "u1") "acme", .mergeTechList [],
                .mergeKnows (some "u1") [], .mergeEmployerRole [],
                .mergeTechTopics [], .mergeUsesEmployer [], .mergeUsesRole []],
         .ret "Error creating tech-title relationships" 500) ∧
    ingest scriptExec llm docB "acme"
        ([.ok, .ok, .ok, .ok, .ok, .ok, .ok, .ok, .ok] ++ .exn :: rest)
      = (rest, [.mergeTenant "acme", .mergeUser (some "u1") (some "Ann") none,
                .mergeAttended (some "u1") "acme", .mergeTechList [],
                .mergeKnows (some "u1") [], .mergeEmployerRole [],
                .mergeTechTopics [], .mergeUsesEmployer [], .mergeUsesRole [],
                .mergeEmployedAt (some "u1") []],
         .ret "Error creating employment relationships" 500) ∧
    ingest scriptExec llm docB "acme"
        ([.ok, .ok, .ok, .ok, .ok, .ok, .ok, .ok, .ok, .ok] ++ .exn :: rest)
      = (rest, [.mergeTenant "acme", .mergeUser (some "u1") (some "Ann") none,
                .mergeAttended (some "u1") "acme", .mergeTechList [],
                .mergeKnows (some "u1") [], .mergeEmployerRole [],
                .mergeTechTopics [], .mergeUsesEmployer [], .mergeUsesRole [],
                .mergeEmployedAt (some "u1") [], .mergeWas (some "u1") []],
         .ret "Error creating role relationships" 500) :=
  ⟨rfl, rfl, rfl, rfl, rfl, rfl, rfl, rfl, rfl, rfl, rfl⟩

/-- C5 counterexample: a uniqueness-constraint violation on the
merge-by-key `Tech` node statement (step 4) is not swallowed: the record
reports `("Error creating user_tech nodes", 500)`, not success. -/
theorem C5_counterexample :
    (ingest scriptExec llm0 docB "acme"
        [.ok, .ok, .ok, .constraintViolation]).2.2
      = .ret "Error creating user_tech nodes" 500 :=
  rfl

/-- C5 (amended): only the tenant and user merges treat a
constraint violation as success; each of the nine later statements treats
it like any other exception and fails the record with its own 500
message. One conjunct per statement position. -/
theorem C5_amended_swallow_only_first_two :
    (ingest scriptExec llm0 docB "acme" [.constraintViolation]).2.2
      = .ret "Successfully processed Ann" 200 ∧
    (ingest scriptExec llm0 docB "acme" [.ok, .constraintViolation]).2.2
      = .ret "Successfully processed Ann" 200 ∧
    (ingest scriptExec llm0 docB "acme" [.ok, .ok, .constraintViolation]).2.2
      = .ret "Error creating user-tenant relationship" 500 ∧
    (ingest scriptExec llm0 docB "acme" [.ok, .ok, .ok, .constraintViolation]).2.2
      = .ret "Error creating user_tech nodes" 500 ∧
    (ingest scriptExec llm0 docB "acme" [.ok, .ok, .ok, .ok, .constraintViolation]).2.2
      = .ret "Error creating user-topic relationships" 500 ∧
    (ingest scriptExec llm0 docB "acme"
        [.ok, .ok, .ok, .ok, .ok, .constraintViolation]).2.2
      = .ret "Error creating employer nodes" 500 ∧
    (ingest scriptExec llm0 docB "acme"
        [.ok, .ok, .ok, .ok, .ok, .ok, .constraintViolation]).2.2
      = .ret "Error creating tech nodes" 500 ∧
    (ingest scriptExec llm0 docB "acme"
        [.ok, .ok, .ok, .ok, .ok, .ok, .ok, .constraintViolation]).2.2
      = .ret "Error creating tech-employer relationships" 500 ∧
    (ingest scriptExec llm0 docB "acme"
        [.ok, .ok, .ok, .ok, .ok, .ok, .ok, .ok, .constraintViolation]).2.2
      = .ret "Error creating tech-title relationships" 500 ∧
    (ingest scriptExec llm0 docB "acme"
        [.ok, .ok, .ok, .ok, .ok, .ok, .ok, .ok, .ok, .constraintViolation]).2.2
      = .ret "Error creating employment relationships" 500 ∧
    (ingest scriptExec llm0 docB "acme"
        [.ok, .ok, .ok, .ok, .ok, .ok, .ok, .ok, .ok, .ok, .constraintViolation]).2.2
      = .ret "Error creating role relationships" 500 :=
  ⟨rfl, rfl, rfl, rfl, rfl, rfl, rfl, rfl, rfl, rfl, rfl⟩

/-- C10 counterexample: on a document with an empty `data` list,
ingestion raises `IndexError` only after the tenant merge has executed:
the trace already holds one graph write and the store gained the tenant
node. -/
theorem C10_counterexample :
    ingest applyStmt llm0 ⟨[]⟩ "acme" GS0
      = ({ GS0 with tenants := [("acme", 0)] }, [.mergeTenant "acme"],
         .raised .indexError) :=
  rfl

/-- C10 (amended): ingestion reads only `data[0]` — every entry after
index 0 is ignored under any executor — and an empty `data` list raises
`IndexError` after the tenant merge (one executed graph write), instead of
returning a `(message, statusCode)` result. -/
theorem C10_amended_first_element_only :
    (∀ (σ : Type) (execQ : σ → Stmt → σ × Resp) (llm : String → Json)
        (tid : String) (s0 : σ) (d0 : Data) (rest rest' : List Data),
        ingest execQ llm ⟨d0 :: rest⟩ tid s0 = ingest execQ llm ⟨d0 :: rest'⟩ tid s0) ∧
    (∀ (llm : String → Json) (tid : String) (s0 : GraphState),
        ingest applyStmt llm ⟨[]⟩ tid s0
          = ({ s0 with tenants := mergeKey s0.tenants tid s0.time },
             [.mergeTenant tid], .raised .indexError)) :=
  ⟨fun _ _ _ _ _ _ _ _ => rfl, fun _ _ _ => rfl⟩

/-! ## Idempotence of the ingest sequence -/

theorem mem_mergeKey_of_mem {l : List (String × β)} {pr : String × β} (k : String) (v : β)
    (h : pr ∈ l) : pr ∈ mergeKey l k v := by
  unfold mergeKey
  split
  · exact h
  · exact List.mem_append_left _ h

/-- The transition `applyState` never removes or alters an existing user entry: the user
merge is `ON CREATE SET` only. -/
theorem applyState_users_mono (s : GraphState) (st : Stmt) (pr : String × (Option String × Option String))
    (h : pr ∈ s.users) : pr ∈ (applyState s st).users := by
  cases st <;> simp only [applyState]
  case mergeUser uri first summ =>
    cases uri with
    | none => exact h
    | some u => exact mem_mergeKey_of_mem u (first, summ) h
  all_goals exact h

theorem mem_keyFold_of_mem {k : α → String} {v : α → β} {l : List (String × β)}
    {pr : String × β} (ts : List α) (h : pr ∈ l) : pr ∈ keyFold k v l ts := by
  induction ts generalizing l with
  | nil => exact h
  | cons a rest ih =>
      unfold keyFold at *
      simp only [List.foldl_cons]
      exact ih (mem_mergeKey_of_mem _ _ h)

/-- The transition `applyState` never removes or alters an existing employer entry: the
employer merge sets `description` only `ON CREATE`. -/
theorem applyState_employers_mono (s : GraphState) (st : Stmt) (pr : String × Option String)
    (h : pr ∈ s.employers) : pr ∈ (applyState s st).employers := by
  cases st <;> simp only [applyState]
  case mergeEmployerRole emps =>
    split
    · exact mem_keyFold_of_mem emps h
    · exact h
  all_goals exact h

/-- Any property preserved by every store transition holds of the state
`ingest` leaves behind. -/
theorem ingest_preserves (P : GraphState → Prop)
    (hP : ∀ s st, P s → P (applyState s st)) (llm : String → Json)
    (dbd : DiffBotData) (tid : String) (s0 : GraphState) (h : P s0) :
    P (ingest applyStmt llm dbd tid s0).1 := by
  simp only [ingest, applyStmt]
  repeat' split
  all_goals simp only
  all_goals repeat apply hP
  all_goals exact h

/-- C1 (confirmed): ingesting the same profile document twice, with the
same (pure) classification service, leaves exactly the graph state of the
first ingestion, whatever state the store started from — every node and
relationship merge is a no-op on the second pass, including after the
partial-failure exits. Moreover user attributes (`firstName`, `summary`)
and employer `description`s that already exist are never overwritten:
every pre-existing user and employer entry survives ingestion unchanged. -/
theorem C1_ingest_idempotent (llm : String → Json) (dbd : DiffBotData) (tid : String)
    (s0 : GraphState) :
    (ingest applyStmt llm dbd tid (ingest applyStmt llm dbd tid s0).1).1
      = (ingest applyStmt llm dbd tid s0).1 ∧
    (∀ u p, (u, p) ∈ s0.users → (u, p) ∈ (ingest applyStmt llm dbd tid s0).1.users) ∧
    (∀ n d, (n, d) ∈ s0.employers →
        (n, d) ∈ (ingest applyStmt llm dbd tid s0).1.employers) := by
  refine ⟨?_, ?_, ?_⟩
  · cases hdata : dbd.data with
    | nil =>
        simp [ingest, applyStmt, respOf, applyState, hdata, mergeKey_idem]
    | cons d0 rest =>
        cases hnd : d0.entity.nameDetail with
        | none =>
            simp [ingest, applyStmt, respOf, applyState, hdata, hnd, mergeKey_idem]
        | some nd =>
            cases huri : d0.entity.diffbotUri with
            | none =>
                simp [ingest, applyStmt, respOf, applyState, hdata, hnd, huri, mergeKey_idem]
            | some u =>
                cases hex : (extract_tech llm d0.entity.description).1 with
                | error e =>
                    simp [ingest, applyStmt, respOf, applyState, hdata, hnd, huri, hex,
                      mergeKey_idem, hasKey_mergeKey_self, pyMerge_idem]
                | ok user_tech =>
                    cases hall : d0.entity.employments.all goodEmpRow with
                    | false =>
                        simp [ingest, applyStmt, respOf, applyState, hdata, hnd, huri, hex,
                          hall, mergeKey_idem, hasKey_mergeKey_self, pyMerge_idem,
                          condMergeFold_idem, condMergeFold_absorb, keyFold_idem]
                    | true =>
                        cases het : employerTech llm d0.entity.employments with
                        | error e =>
                            simp [ingest, applyStmt, respOf, applyState, hdata, hnd, huri,
                              hex, hall, het, mergeKey_idem, hasKey_mergeKey_self,
                              pyMerge_idem, condMergeFold_idem, condMergeFold_absorb,
                              keyFold_idem]
                        | ok et =>
                            cases htt : titleTech llm d0.entity.employments with
                            | error e =>
                                simp [ingest, applyStmt, respOf, applyState, hdata, hnd,
                                  huri, hex, hall, het, htt, mergeKey_idem,
                                  hasKey_mergeKey_self, pyMerge_idem, condMergeFold_idem,
                                  condMergeFold_absorb, keyFold_idem]
                            | ok tt =>
                                simp [ingest, applyStmt, respOf, applyState, hdata, hnd,
                                  huri, hex, hall, het, htt, mergeKey_idem,
                                  hasKey_mergeKey_self, pyMerge_idem, condMergeFold_idem,
                                  condMergeFold_absorb, keyFold_idem]
  · intro u p h
    exact ingest_preserves (fun s => (u, p) ∈ s.users)
      (fun s st => applyState_users_mono s st (u, p)) llm dbd tid s0 h
  · intro n d h
    exact ingest_preserves (fun s => (n, d) ∈ s.employers)
      (fun s st => applyState_employers_mono s st (n, d)) llm dbd tid s0 h

/-- C1 witness: the theorem applied to a concrete document over a store
that already holds a user and an employer; the membership hypotheses are
discharged by `simp`. -/
theorem C1_ingest_idempotent_witness :
    (ingest applyStmt llm0 docB "acme"
        (ingest applyStmt llm0 docB "acme"
          { GS0 with users := [("u0", (some "X", none))],
                     employers := [("E", some "d")] }).1).1
      = (ingest applyStmt llm0 docB "acme"
          { GS0 with users := [("u0", (some "X", none))],
                     employers := [("E", some "d")] }).1 ∧
    ("u0", (some "X", none)) ∈ (ingest applyStmt llm0 docB "acme"
          { GS0 with users := [("u0", (some "X", none))],
                     employers := [("E", some "d")] }).1.users ∧
    ("E", some "d") ∈ (ingest applyStmt llm0 docB "acme"
          { GS0 with users := [("u0", (some "X", none))],
                     employers := [("E", some "d")] }).1.employers :=
  ⟨(C1_ingest_idempotent llm0 docB "acme" _).1,
   (C1_ingest_idempotent llm0 docB "acme" _).2.1 "u0" (some "X", none) (by simp),
   (C1_ingest_idempotent llm0 docB "acme" _).2.2 "E" (some "d") (by simp)⟩

end VFIngest
